import Mathlib

/-!
Verification of the Cup-Game repository's round-resolution and game-mode
state machine against its specification.

The embedding translates the Python sources directly:
* `src/cup_game_enhanced.py` — `Difficulty`, `GameMode`, `CupGame._get_game_config`
  (`getGameConfig`), `CupGame.validate_choice` (`validate_choice`),
  `CupGame.play_round` (`termPlayRound`).
* `src/Cup_Game.py` — `CupGame.validate_choice` (`basicValidateChoice`).
* `src/web_app.py` — the Flask session state machine: `start_game`
  (`stepStartGame`), `play_round` (`stepPlayRound`), `end_game` (`stepEndGame`),
  `get_game_status` (`stepGameStatus`).

Modelling conventions:
* Python `str.lower()` / `str.strip()` are embedded as the list-based
  `pyLower` / `pyStrip` (the cup names and relevant inputs are ASCII).
* `time.time()` timestamps and durations are embedded as `Int` seconds; all
  the code ever does with them is subtract and compare against integer limits.
* `random.choice(lst)` is embedded as `pick lst i` for an arbitrary index
  `i : Nat`, taken modulo the list length.
* A database insert either succeeds or raises `sqlite3.Error`
  (`DatabaseManager.save_game_session` re-raises); the flag `saveOk` selects
  which.  A successful insert is recorded as an emitted `SessionRecord`; a
  raise propagates to the handler's blanket `except Exception`, which returns
  a generic 500 response, modelled by the result `storeFailed`.
* Flask commits session-dict mutations to the response cookie even when the
  handler returns an error response, so state mutations made before a raise
  survive it.
-/

inductive Difficulty
  | easy
  | medium
  | hard
deriving DecidableEq, Repr

inductive GameMode
  | classic
  | timed
  | streak
deriving DecidableEq, Repr

/-- Derived game configuration: `cups`/`shuffle_time` from the difficulty
table, `time_limit` present exactly in timed mode, `max_rounds` present
exactly in streak mode (Python `None` / missing key become `none`). -/
structure GameConfig where
  cups : List String
  shuffle_time : ℚ
  time_limit : Option Int
  max_rounds : Option Nat
deriving DecidableEq, Repr

/-- Python `str.lower()` (ASCII case fold, as used on the cup names). -/
def pyLower (s : String) : String :=
  ⟨s.data.map Char.toLower⟩

/-- Python `str.strip()`: drop whitespace from both ends. -/
def pyStrip (s : String) : String :=
  ⟨((s.data.dropWhile Char.isWhitespace).reverse.dropWhile Char.isWhitespace).reverse⟩

/-- `random.choice(lst)` for an arbitrary draw index, reduced mod the length. -/
def pick (lst : List String) (i : Nat) : String :=
  lst.getD (i % lst.length) ""

/-- The fixed 10-item prize list (`cup_game_enhanced.py` lines 138-149 and
`web_app.py` lines 105-109). -/
def prizes : List String :=
  ["a Disney Cruise ticket", "a Ferrari", "a mansion in Beverly Hills",
   "a giraffe", "Jordan Air 1s", "a golden watch", "a private jet",
   "a treasure chest", "a magical sword", "a diamond ring"]

/-- `CupGame._get_game_config` (`cup_game_enhanced.py` lines 153-178):
difficulty table, then timed mode sets `time_limit = 30`, streak mode sets
`max_rounds = 10`. -/
def getGameConfig (d : Difficulty) (m : GameMode) : GameConfig :=
  let base : GameConfig :=
    match d with
    | .easy => ⟨["left", "right"], 2, none, none⟩
    | .medium => ⟨["left", "middle", "right"], 3/2, none, none⟩
    | .hard => ⟨["left", "middle-left", "middle-right", "right"], 1, none, none⟩
  match m with
  | .classic => base
  | .timed => { base with time_limit := some 30 }
  | .streak => { base with max_rounds := some 10 }

/-- The `game_config` dictionary built by `start_game` (`web_app.py` lines
39-52): same difficulty table, `time_limit` for timed, `max_rounds` for
streak. -/
def webGameConfig (d : Difficulty) (m : GameMode) : GameConfig :=
  let base : GameConfig :=
    match d with
    | .easy => ⟨["left", "right"], 2, none, none⟩
    | .medium => ⟨["left", "middle", "right"], 3/2, none, none⟩
    | .hard => ⟨["left", "middle-left", "middle-right", "right"], 1, none, none⟩
  match m with
  | .classic => base
  | .timed => { base with time_limit := some 30 }
  | .streak => { base with max_rounds := some 10 }

/-- `CupGame.validate_choice` (`cup_game_enhanced.py` lines 217-219):
`return choice.lower() in self.config['cups']` — case-folds, does NOT strip. -/
def validate_choice (cfg : GameConfig) (choice : String) : Bool :=
  cfg.cups.contains (pyLower choice)

/-- The cup list of the basic game (`Cup_Game.py` line 11). -/
def basicChoices : List String :=
  ["left", "middle", "right"]

/-- `CupGame.validate_choice` of `Cup_Game.py` (lines 34-35):
`return choice in self.choices` — raw membership, no normalization. -/
def basicValidateChoice (choice : String) : Bool :=
  basicChoices.contains choice

/-- Choice validation as the spec's words describe it (spec 4.2:
"Normalize (trim, case-fold) and test membership in `config.cupNames`");
stated for comparison with the source's `validate_choice`. -/
def specValidateChoice (cfg : GameConfig) (choice : String) : Bool :=
  cfg.cups.contains (pyLower (pyStrip choice))

/-- A row of the `game_sessions` table as inserted by
`DatabaseManager.save_game_session` (`cup_game_enhanced.py` lines 66-79). -/
structure SessionRecord where
  difficulty : Difficulty
  game_mode : GameMode
  wins : Nat
  losses : Nat
  duration_seconds : Option Int
deriving DecidableEq, Repr

/-- The Flask session dict of `web_app.py` (keys set in `start_game`,
lines 54-62). -/
structure WebSession where
  game_active : Bool
  difficulty : Difficulty
  game_mode : GameMode
  config : GameConfig
  wins : Nat
  losses : Nat
  start_time : Int
  round_number : Nat
deriving DecidableEq, Repr

/-- The distinguishable JSON responses of the `web_app.py` handlers. -/
inductive WebResult
  | noActiveGame
  | invalidChoice
  | timeExpired (final_wins final_losses : Nat)
  | streakBroken (prize_cup prize : String) (wins losses : Nat) (duration : Int)
  | maxRounds (won : Bool) (prize_cup prize : String) (wins losses : Nat) (duration : Int)
  | ongoing (won : Bool) (prize_cup prize : String) (wins losses : Nat)
      (round_number : Nat) (time_remaining : Option Int) (shuffle_time : ℚ)
  | storeFailed
  | started (cfg : GameConfig)
  | statusInactive
  | statusExpired
  | statusActive (time_remaining : Option Int)
  | endOk (wins losses : Nat) (duration : Int)
deriving DecidableEq, Repr

/-- Tail of `play_round` after the score update (`web_app.py` lines 143-185):
`round_number` has been bumped in `s1`; check `config.get('max_rounds')`
(Python truthiness: absent or 0 skips), persist and finish when the round
total reached it, otherwise report the ongoing round with the remaining time
in timed mode. -/
def afterScore (s1 : WebSession) (won : Bool) (prize_cup prize : String)
    (now : Int) (saveOk : Bool) : WebResult × WebSession × List SessionRecord :=
  if 0 < s1.config.max_rounds.getD 0 ∧ s1.config.max_rounds.getD 0 ≤ s1.wins + s1.losses then
    if saveOk then
      (.maxRounds won prize_cup prize s1.wins s1.losses (now - s1.start_time),
       { s1 with game_active := false },
       [⟨s1.difficulty, s1.game_mode, s1.wins, s1.losses, some (now - s1.start_time)⟩])
    else
      (.storeFailed, { s1 with game_active := false }, [])
  else
    (.ongoing won prize_cup prize s1.wins s1.losses s1.round_number
       (if s1.game_mode = .timed then
          some (max 0 ((s1.config.time_limit.getD 30) - (now - s1.start_time)))
        else none)
       s1.config.shuffle_time,
     s1, [])

/-- `play_round` (`web_app.py` lines 77-189): require an active game, then
validate the lowered-and-stripped choice, then (timed mode only) check the
time limit, then draw cup and prize, score the round, and apply streak-break
and max-rounds termination, persisting the session on those two paths. -/
def stepPlayRound (s : WebSession) (choice : String) (now : Int)
    (cupIdx prizeIdx : Nat) (saveOk : Bool) :
    WebResult × WebSession × List SessionRecord :=
  if s.game_active = false then (.noActiveGame, s, [])
  else if s.config.cups.contains (pyStrip (pyLower choice)) = false then
    (.invalidChoice, s, [])
  else if s.game_mode = .timed ∧ (s.config.time_limit.getD 30) ≤ now - s.start_time then
    (.timeExpired s.wins s.losses, { s with game_active := false }, [])
  else if pyStrip (pyLower choice) = pick s.config.cups cupIdx then
    afterScore { s with wins := s.wins + 1, round_number := s.round_number + 1 }
      true (pick s.config.cups cupIdx) (pick prizes prizeIdx) now saveOk
  else if s.game_mode = .streak then
    if saveOk then
      (.streakBroken (pick s.config.cups cupIdx) (pick prizes prizeIdx)
         s.wins (s.losses + 1) (now - s.start_time),
       { s with losses := s.losses + 1, game_active := false },
       [⟨s.difficulty, s.game_mode, s.wins, s.losses + 1, some (now - s.start_time)⟩])
    else
      (.storeFailed, { s with losses := s.losses + 1, game_active := false }, [])
  else
    afterScore { s with losses := s.losses + 1, round_number := s.round_number + 1 }
      false (pick s.config.cups cupIdx) (pick prizes prizeIdx) now saveOk

/-- `start_game` (`web_app.py` lines 25-74) for an already-validated
difficulty and mode: unconditionally reinitialize every session key; nothing
is persisted. -/
def stepStartGame (_s : WebSession) (d : Difficulty) (m : GameMode) (now : Int) :
    WebResult × WebSession × List SessionRecord :=
  (.started (webGameConfig d m),
   { game_active := true, difficulty := d, game_mode := m,
     config := webGameConfig d m, wins := 0, losses := 0,
     start_time := now, round_number := 1 },
   [])

/-- `end_game` (`web_app.py` lines 192-225): persist then deactivate; a
store failure raises before `game_active` is cleared, so the session stays
active. -/
def stepEndGame (s : WebSession) (now : Int) (saveOk : Bool) :
    WebResult × WebSession × List SessionRecord :=
  if s.game_active = false then (.noActiveGame, s, [])
  else if saveOk then
    (.endOk s.wins s.losses (now - s.start_time), { s with game_active := false },
     [⟨s.difficulty, s.game_mode, s.wins, s.losses, some (now - s.start_time)⟩])
  else
    (.storeFailed, s, [])

/-- `get_game_status` (`web_app.py` lines 239-280): in timed mode compute
`time_remaining = max(0, limit - elapsed)`; when it hits 0 the session is
deactivated and persisted (a store failure still leaves it deactivated). -/
def stepGameStatus (s : WebSession) (now : Int) (saveOk : Bool) :
    WebResult × WebSession × List SessionRecord :=
  if s.game_active = false then (.statusInactive, s, [])
  else if s.game_mode = .timed then
    if max 0 ((s.config.time_limit.getD 30) - (now - s.start_time)) ≤ 0 then
      if saveOk then
        (.statusExpired, { s with game_active := false },
         [⟨s.difficulty, s.game_mode, s.wins, s.losses, some (now - s.start_time)⟩])
      else
        (.storeFailed, { s with game_active := false }, [])
    else
      (.statusActive (some (max 0 ((s.config.time_limit.getD 30) - (now - s.start_time)))),
       s, [])
  else
    (.statusActive none, s, [])

/-- One request against the web session state machine. -/
inductive WebOp
  | start (d : Difficulty) (m : GameMode) (now : Int)
  | play (choice : String) (now : Int) (cupIdx prizeIdx : Nat) (saveOk : Bool)
  | status (now : Int) (saveOk : Bool)
  | endGame (now : Int) (saveOk : Bool)
deriving DecidableEq, Repr

def WebOp.isStart : WebOp → Bool
  | .start _ _ _ => true
  | _ => false

/-- Dispatch of the four handlers. -/
def stepWeb (s : WebSession) : WebOp → WebResult × WebSession × List SessionRecord
  | .start d m now => stepStartGame s d m now
  | .play choice now cupIdx prizeIdx saveOk => stepPlayRound s choice now cupIdx prizeIdx saveOk
  | .status now saveOk => stepGameStatus s now saveOk
  | .endGame now saveOk => stepEndGame s now saveOk

/-- The max-rounds session invariant: whenever the configuration sets
`max_rounds`, the round total never exceeds it, and an active session is
strictly below it. -/
def SessionInv (s : WebSession) : Prop :=
  ∀ mr, s.config.max_rounds = some mr →
    s.wins + s.losses ≤ mr ∧ (s.game_active = true → s.wins + s.losses < mr)

/-- The terminal `CupGame` object state (`cup_game_enhanced.py` lines
127-136). -/
structure TermGame where
  difficulty : Difficulty
  game_mode : GameMode
  wins : Nat
  losses : Nat
  start_time : Int
  config : GameConfig
deriving DecidableEq, Repr

/-- The terminal re-prompt loop (`cup_game_enhanced.py` lines 237-241): each
raw input is lowered and stripped; the first one passing `validate_choice`
is accepted, the rest are rejected and re-prompted. -/
def firstValid (cfg : GameConfig) : List String → Option String
  | [] => none
  | i :: rest =>
    if validate_choice cfg (pyStrip (pyLower i)) then some (pyStrip (pyLower i))
    else firstValid cfg rest

/-- The max-rounds continuation check at the end of the terminal
`play_round` (`cup_game_enhanced.py` lines 263-267, Python truthiness on
`config.get('max_rounds')`). -/
def termMaxRounds (g : TermGame) : Bool :=
  if 0 < g.config.max_rounds.getD 0 ∧ g.config.max_rounds.getD 0 ≤ g.wins + g.losses then
    false
  else
    true

/-- The terminal `CupGame.play_round` (`cup_game_enhanced.py` lines 221-278):
timed-mode expiry check first (no draw, no input, no score change), then the
draws, the re-prompt loop over the pending raw inputs, scoring, streak-break
and max-rounds termination.  `some (continue, g')` mirrors the Python
return value; `none` means the input stream held no valid choice (the
Python loop would still be waiting at the prompt). -/
def termPlayRound (g : TermGame) (now : Int) (cupIdx prizeIdx : Nat)
    (inputs : List String) : Option (Bool × TermGame) :=
  if g.game_mode = .timed ∧ (g.config.time_limit.getD 30) ≤ now - g.start_time then
    some (false, g)
  else
    let _prize := pick prizes prizeIdx
    match firstValid g.config inputs with
    | none => none
    | some user_choice =>
      if user_choice = pick g.config.cups cupIdx then
        let g1 := { g with wins := g.wins + 1 }
        some (termMaxRounds g1, g1)
      else
        let g1 := { g with losses := g.losses + 1 }
        if g.game_mode = .streak then some (false, g1)
        else some (termMaxRounds g1, g1)

/-- Easy-difficulty configuration, used by the concrete validation facts. -/
def easyConfig : GameConfig :=
  getGameConfig .easy .classic

/-- An inactive placeholder session (a fresh Flask session dict, where
`session.get('game_active')` is falsy). -/
def blankSession : WebSession :=
  { game_active := false, difficulty := .easy, game_mode := .classic,
    config := webGameConfig .easy .classic, wins := 0, losses := 0,
    start_time := 0, round_number := 0 }

/-- The session produced by starting an easy timed game at time 0. -/
def timedSession : WebSession :=
  (stepStartGame blankSession .easy .timed 0).2.1

/-- The session produced by starting an easy streak game at time 0. -/
def streakSession : WebSession :=
  (stepStartGame blankSession .easy .streak 0).2.1

/-- A terminal easy classic game right after `run` sets `start_time`. -/
def termG : TermGame :=
  { difficulty := .easy, game_mode := .classic, wins := 0, losses := 0,
    start_time := 0, config := getGameConfig .easy .classic }

/-- A terminal easy timed game right after `run` sets `start_time`. -/
def timedTermG : TermGame :=
  { difficulty := .easy, game_mode := .timed, wins := 0, losses := 0,
    start_time := 0, config := getGameConfig .easy .timed }

/-- Claim C6: configuration derivation is a pure function of
(difficulty, mode): easy gives exactly the cups [left, right] with a 2.0s
shuffle delay, medium the 3 cups with 1.5s, hard the 4 cups with 1.0s, all
names distinct; timed mode adds a 30-second time limit, streak mode adds a
10-round target, classic adds neither; the terminal and web derivations
agree. -/
theorem C6_config_derivation :
    ∀ (d : Difficulty) (m : GameMode),
      getGameConfig d m = webGameConfig d m
      ∧ (getGameConfig d m).cups =
          (match d with
           | .easy => ["left", "right"]
           | .medium => ["left", "middle", "right"]
           | .hard => ["left", "middle-left", "middle-right", "right"])
      ∧ (getGameConfig d m).shuffle_time =
          (match d with
           | .easy => 2
           | .medium => 3/2
           | .hard => 1)
      ∧ (getGameConfig d m).cups.Nodup
      ∧ (getGameConfig d m).time_limit = (if m = .timed then some 30 else none)
      ∧ (getGameConfig d m).max_rounds = (if m = .streak then some 10 else none) := by
  intro d m
  cases d <;> cases m <;> exact ⟨rfl, rfl, rfl, by decide, by decide, by decide⟩

/-- Claim C3 counterexample: `validate_choice` as written in the source does
not strip surrounding whitespace, so validating a padded upper-case choice
differs from validating the bare lower-case one, contradicting the claim;
the spec-worded validator (trim then case-fold) accepts it. -/
theorem C3_whitespace_counterexample :
    validate_choice easyConfig "  LEFT " = false
    ∧ validate_choice easyConfig "left" = true
    ∧ ¬ validate_choice easyConfig "  LEFT " = validate_choice easyConfig "left"
    ∧ specValidateChoice easyConfig "  LEFT " = true := by
  decide

/-- Claim C3 as amended: `CupGame.validate_choice` case-folds its argument
and tests membership in the configured cups (a total Boolean function), but
does not trim whitespace; the surrounding whitespace is stripped by the
callers before validation, so the composed caller-side pipeline is
whitespace-tolerant and agrees on a padded and a bare spelling of the same
cup; `middle` is invalid under the easy configuration; the basic
`Cup_Game.py` validator performs no normalization at all. -/
theorem C3_casefold_without_trim :
    validate_choice easyConfig "LEFT" = true
    ∧ validate_choice easyConfig "LeFt" = true
    ∧ validate_choice easyConfig "left" = true
    ∧ validate_choice easyConfig "middle" = false
    ∧ validate_choice easyConfig "  LEFT " = false
    ∧ easyConfig.cups.contains (pyStrip (pyLower "  LEFT "))
        = easyConfig.cups.contains (pyStrip (pyLower "left"))
    ∧ easyConfig.cups.contains (pyStrip (pyLower "  LEFT ")) = true
    ∧ specValidateChoice easyConfig "  LEFT " = specValidateChoice easyConfig "left"
    ∧ specValidateChoice easyConfig "left" = true
    ∧ specValidateChoice easyConfig "middle" = false
    ∧ basicValidateChoice "left" = true
    ∧ basicValidateChoice "LEFT" = false := by
  decide

/-- Claim C10: the web `start_game` endpoint unconditionally re-initializes
the caller's session (active, zero score, fresh start time, round 1, the
freshly derived configuration) from any prior session state, active or not,
and persists nothing — the discarded in-progress score never reaches the
store. -/
theorem C10_start_game_reinitializes :
    ∀ (s : WebSession) (d : Difficulty) (m : GameMode) (now : Int),
      (stepWeb s (.start d m now)).2.1.game_active = true
      ∧ (stepWeb s (.start d m now)).2.1.wins = 0
      ∧ (stepWeb s (.start d m now)).2.1.losses = 0
      ∧ (stepWeb s (.start d m now)).2.1.start_time = now
      ∧ (stepWeb s (.start d m now)).2.1.round_number = 1
      ∧ (stepWeb s (.start d m now)).2.1.difficulty = d
      ∧ (stepWeb s (.start d m now)).2.1.game_mode = m
      ∧ (stepWeb s (.start d m now)).2.1.config = webGameConfig d m
      ∧ (stepWeb s (.start d m now)).2.2 = [] := by
  intro s d m now
  exact ⟨rfl, rfl, rfl, rfl, rfl, rfl, rfl, rfl, rfl⟩

/-- Claim C2 counterexample: the web `play_round` validates the choice
before checking the time limit, so an invalid raw choice on an expired timed
session is answered with the invalid-choice error and the session stays
active — the claimed expiry-before-validation ordering is false. -/
theorem C2_validation_precedes_expiry :
    stepPlayRound timedSession " Banana " 35 0 0 true = (.invalidChoice, timedSession, [])
    ∧ (stepPlayRound timedSession " Banana " 35 0 0 true).2.1.game_active = true
    ∧ (timedSession.config.time_limit.getD 30) ≤ 35 - timedSession.start_time := by
  exact ⟨rfl, rfl, by decide⟩

/-- Claim C2 as amended: in timed mode, once the elapsed time reaches the
limit, resolving a round with a choice that passes validation finishes the
session with the time-expired outcome — no cup or prize is drawn (the draw
indices are irrelevant), wins and losses are unchanged, nothing is
persisted; the terminal `play_round` does the same before even reading
input.  In the web handler this happens after, not before, choice
validation. -/
theorem C2_time_expiry_resolution :
    (∀ (s : WebSession) (choice : String) (now : Int) (cupIdx prizeIdx : Nat) (saveOk : Bool),
        s.game_active = true →
        s.game_mode = .timed →
        s.config.cups.contains (pyStrip (pyLower choice)) = true →
        (s.config.time_limit.getD 30) ≤ now - s.start_time →
        stepPlayRound s choice now cupIdx prizeIdx saveOk
          = (.timeExpired s.wins s.losses, { s with game_active := false }, []))
    ∧ (∀ (g : TermGame) (now : Int) (cupIdx prizeIdx : Nat) (inputs : List String),
        g.game_mode = .timed →
        (g.config.time_limit.getD 30) ≤ now - g.start_time →
        termPlayRound g now cupIdx prizeIdx inputs = some (false, g)) := by
  constructor
  · intro s choice now ci pi ok hact hmode hval hexp
    simp at hval
    simp [stepPlayRound, hact, hmode, hval, hexp]
  · intro g now ci pi ins hmode hexp
    simp [termPlayRound, hmode, hexp]

/-- Witness for C2: the expired easy timed session resolves a valid choice
to the time-expired outcome with the score untouched. -/
theorem C2_time_expiry_resolution_witness :
    stepPlayRound timedSession "left" 35 0 0 true
      = (.timeExpired timedSession.wins timedSession.losses,
         { timedSession with game_active := false }, [])
    ∧ termPlayRound timedTermG 35 0 0 ["left"] = some (false, timedTermG) :=
  ⟨C2_time_expiry_resolution.1 timedSession "left" 35 0 0 true rfl rfl (by decide) (by decide),
   C2_time_expiry_resolution.2 timedTermG 35 0 0 ["left"] rfl (by decide)⟩

/-- Claim C4: in streak mode the first lost round produces the
streak-broken, game-over outcome, persists the session, and deactivates it;
any later round call on an inactive session is refused with the
no-active-game error without touching wins, losses, or anything else. -/
theorem C4_streak_break_terminates :
    (∀ (s : WebSession) (choice : String) (now : Int) (cupIdx prizeIdx : Nat),
        s.game_active = true →
        s.game_mode = .streak →
        s.config.cups.contains (pyStrip (pyLower choice)) = true →
        pyStrip (pyLower choice) ≠ pick s.config.cups cupIdx →
        stepPlayRound s choice now cupIdx prizeIdx true
          = (.streakBroken (pick s.config.cups cupIdx) (pick prizes prizeIdx)
               s.wins (s.losses + 1) (now - s.start_time),
             { s with losses := s.losses + 1, game_active := false },
             [⟨s.difficulty, s.game_mode, s.wins, s.losses + 1, some (now - s.start_time)⟩]))
    ∧ (∀ (t : WebSession) (c : String) (n : Int) (ci pi : Nat) (ok : Bool),
        t.game_active = false →
        stepPlayRound t c n ci pi ok = (.noActiveGame, t, [])) := by
  constructor
  · intro s choice now ci pi hact hmode hval hlose
    simp at hval
    simp [stepPlayRound, hact, hmode, hval, hlose]
  · intro t c n ci pi ok hin
    simp [stepPlayRound, hin]

/-- Witness for C4: a lost first round of the easy streak game ends it with
the streak-broken record, and a retry on the now-inactive session is
refused unchanged. -/
theorem C4_streak_break_terminates_witness :
    stepPlayRound streakSession "right" 5 0 0 true
      = (.streakBroken (pick streakSession.config.cups 0) (pick prizes 0)
           streakSession.wins (streakSession.losses + 1) (5 - streakSession.start_time),
         { streakSession with losses := streakSession.losses + 1, game_active := false },
         [⟨streakSession.difficulty, streakSession.game_mode, streakSession.wins,
           streakSession.losses + 1, some (5 - streakSession.start_time)⟩])
    ∧ stepPlayRound
        { streakSession with losses := streakSession.losses + 1, game_active := false }
        "left" 6 0 0 true
      = (.noActiveGame,
         { streakSession with losses := streakSession.losses + 1, game_active := false },
         []) :=
  ⟨C4_streak_break_terminates.1 streakSession "right" 5 0 0 rfl rfl (by decide) (by decide),
   C4_streak_break_terminates.2 _ "left" 6 0 0 true rfl⟩

/-- Claim C7: an invalid raw choice is rejected — the web handler answers
with the invalid-choice error leaving the session exactly as it was, with
nothing drawn and nothing persisted; the terminal re-prompt loop skips the
rejected input and resolves the round exactly as it would without it. -/
theorem C7_invalid_choice_no_mutation :
    (∀ (s : WebSession) (choice : String) (now : Int) (ci pi : Nat) (ok : Bool),
        s.game_active = true →
        s.config.cups.contains (pyStrip (pyLower choice)) = false →
        stepPlayRound s choice now ci pi ok = (.invalidChoice, s, []))
    ∧ (∀ (g : TermGame) (now : Int) (ci pi : Nat) (bad : String) (rest : List String),
        validate_choice g.config (pyStrip (pyLower bad)) = false →
        termPlayRound g now ci pi (bad :: rest) = termPlayRound g now ci pi rest) := by
  constructor
  · intro s choice now ci pi ok hact hval
    simp at hval
    simp [stepPlayRound, hact, hval]
  · intro g now ci pi bad rest hbad
    simp [termPlayRound, firstValid, hbad]

/-- Witness for C7: a padded bogus choice is rejected without mutation on
the streak session, and a bogus terminal input is skipped by the re-prompt
loop. -/
theorem C7_invalid_choice_no_mutation_witness :
    stepPlayRound streakSession " Banana " 3 0 0 true = (.invalidChoice, streakSession, [])
    ∧ termPlayRound termG 0 0 0 ["banana", "left"] = termPlayRound termG 0 0 0 ["left"] :=
  ⟨C7_invalid_choice_no_mutation.1 streakSession " Banana " 3 0 0 true rfl (by decide),
   C7_invalid_choice_no_mutation.2 termG 0 0 0 "banana" ["left"] (by decide)⟩

/-- Helper: `play_round` never changes the session's configuration. -/
theorem stepPlayRound_config (s : WebSession) (choice : String) (now : Int)
    (ci pi : Nat) (ok : Bool) :
    (stepPlayRound s choice now ci pi ok).2.1.config = s.config := by
  unfold stepPlayRound afterScore
  split_ifs <;> rfl

/-- Helper: a freshly started web session satisfies the max-rounds
invariant. -/
theorem sessionInv_start (s : WebSession) (d : Difficulty) (m : GameMode) (now : Int) :
    SessionInv (stepStartGame s d m now).2.1 := by
  intro mr hmr
  cases m <;> cases d <;> simp [stepStartGame, webGameConfig] at hmr ⊢ <;> omega

set_option maxHeartbeats 1600000 in
/-- Helper: `play_round` preserves the max-rounds invariant. -/
theorem sessionInv_play (s : WebSession) (choice : String) (now : Int)
    (ci pi : Nat) (ok : Bool) (h : SessionInv s) :
    SessionInv (stepPlayRound s choice now ci pi ok).2.1 := by
  intro mr hmr
  rw [stepPlayRound_config] at hmr
  have hs := h mr hmr
  unfold stepPlayRound afterScore
  split_ifs <;> simp_all <;> omega

/-- Helper: `get_game_status` preserves the max-rounds invariant. -/
theorem sessionInv_status (s : WebSession) (now : Int) (ok : Bool)
    (h : SessionInv s) : SessionInv (stepGameStatus s now ok).2.1 := by
  intro mr
  unfold stepGameStatus
  split_ifs <;> intro hmr <;> simp_all <;> have hs := h mr (by simpa using hmr) <;> simp_all

/-- Helper: `end_game` preserves the max-rounds invariant. -/
theorem sessionInv_endGame (s : WebSession) (now : Int) (ok : Bool)
    (h : SessionInv s) : SessionInv (stepEndGame s now ok).2.1 := by
  intro mr
  unfold stepEndGame
  split_ifs <;> intro hmr <;> simp_all <;> have hs := h mr (by simpa using hmr) <;> simp_all

/-- Claim C5 counterexample: when the store insert fails on a streak-break
round, the handler's blanket exception handler answers with the generic 500
error instead of the already-computed round outcome — the outcome is not
returned to the caller, contradicting the claim (the session score itself
is kept: losses were already incremented). -/
theorem C5_store_failure_drops_outcome :
    stepPlayRound streakSession "right" 5 0 0 false
      = (.storeFailed, { streakSession with losses := 1, game_active := false }, [])
    ∧ (stepPlayRound streakSession "right" 5 0 0 true).1
      = .streakBroken "left" "a Disney Cruise ticket" 0 1 5
    ∧ (WebResult.storeFailed ≠ .streakBroken "left" "a Disney Cruise ticket" 0 1 5) := by
  exact ⟨rfl, rfl, by decide⟩

/-- Claim C5 as amended: a store failure during `play_round` does not
corrupt or lose the in-memory session — the post-state is exactly the
post-state of the successful run (score updates and deactivation included)
— and nothing is persisted; but the round outcome is NOT returned: on any
persisting path the failing run answers with the generic 500 error. -/
theorem C5_store_failure_preserves_session :
    ∀ (s : WebSession) (choice : String) (now : Int) (ci pi : Nat),
      (stepPlayRound s choice now ci pi false).2.1 = (stepPlayRound s choice now ci pi true).2.1
      ∧ (stepPlayRound s choice now ci pi false).2.2 = []
      ∧ ((stepPlayRound s choice now ci pi true).2.2 ≠ [] →
          (stepPlayRound s choice now ci pi false).1 = .storeFailed) := by
  intro s choice now ci pi
  unfold stepPlayRound afterScore
  split_ifs <;> simp_all

/-- Witness for C5: on the streak-break round the failing run keeps the
successful run's session state and reports the 500 error. -/
theorem C5_store_failure_preserves_session_witness :
    (stepPlayRound streakSession "right" 5 0 0 false).2.1
      = (stepPlayRound streakSession "right" 5 0 0 true).2.1
    ∧ (stepPlayRound streakSession "right" 5 0 0 false).1 = .storeFailed :=
  ⟨(C5_store_failure_preserves_session streakSession "right" 5 0 0).1,
   (C5_store_failure_preserves_session streakSession "right" 5 0 0).2.2 (by decide)⟩

/-- Claim C8: wins and losses (and hence their sum) never decrease — a web
round call can only keep or increment them, the status and end-game
handlers never touch them, and a terminal round call can only keep or
increment them. -/
theorem C8_score_monotone :
    (∀ (s : WebSession) (choice : String) (now : Int) (ci pi : Nat) (ok : Bool),
        s.wins ≤ (stepPlayRound s choice now ci pi ok).2.1.wins
        ∧ s.losses ≤ (stepPlayRound s choice now ci pi ok).2.1.losses
        ∧ s.wins + s.losses ≤
            (stepPlayRound s choice now ci pi ok).2.1.wins
              + (stepPlayRound s choice now ci pi ok).2.1.losses)
    ∧ (∀ (s : WebSession) (now : Int) (ok : Bool),
        (stepEndGame s now ok).2.1.wins = s.wins
        ∧ (stepEndGame s now ok).2.1.losses = s.losses)
    ∧ (∀ (s : WebSession) (now : Int) (ok : Bool),
        (stepGameStatus s now ok).2.1.wins = s.wins
        ∧ (stepGameStatus s now ok).2.1.losses = s.losses)
    ∧ (∀ (g : TermGame) (now : Int) (ci pi : Nat) (inputs : List String) (b : Bool)
          (g' : TermGame),
        termPlayRound g now ci pi inputs = some (b, g') →
        g.wins ≤ g'.wins ∧ g.losses ≤ g'.losses) := by
  refine ⟨?_, ?_, ?_, ?_⟩
  · intro s choice now ci pi ok
    unfold stepPlayRound afterScore
    split_ifs <;> simp
  · intro s now ok
    unfold stepEndGame
    split_ifs <;> simp
  · intro s now ok
    unfold stepGameStatus
    split_ifs <;> simp
  · intro g now ci pi ins b g' h
    unfold termPlayRound at h
    split at h
    · simp only [Option.some.injEq, Prod.mk.injEq] at h
      obtain ⟨-, hg⟩ := h
      subst hg
      exact ⟨le_refl _, le_refl _⟩
    · cases hfv : firstValid g.config ins with
      | none => rw [hfv] at h; exact absurd h (by simp)
      | some uc =>
        rw [hfv] at h
        dsimp only at h
        by_cases hw : uc = pick g.config.cups ci
        · rw [if_pos hw] at h
          simp only [Option.some.injEq, Prod.mk.injEq] at h
          obtain ⟨-, hg⟩ := h
          subst hg
          exact ⟨Nat.le_succ _, le_refl _⟩
        · rw [if_neg hw] at h
          by_cases hs : g.game_mode = GameMode.streak
          · rw [if_pos hs] at h
            simp only [Option.some.injEq, Prod.mk.injEq] at h
            obtain ⟨-, hg⟩ := h
            subst hg
            exact ⟨le_refl _, Nat.le_succ _⟩
          · rw [if_neg hs] at h
            simp only [Option.some.injEq, Prod.mk.injEq] at h
            obtain ⟨-, hg⟩ := h
            subst hg
            exact ⟨le_refl _, Nat.le_succ _⟩

/-- Witness for C8: a concrete winning terminal round increments wins from
0 to 1 and keeps losses. -/
theorem C8_score_monotone_witness :
    termG.wins ≤ ({ termG with wins := termG.wins + 1 } : TermGame).wins
    ∧ termG.losses ≤ ({ termG with wins := termG.wins + 1 } : TermGame).losses :=
  C8_score_monotone.2.2.2 termG 0 0 0 ["left"] true
    { termG with wins := termG.wins + 1 } rfl

/-- Claim C9: the max-rounds invariant — when the configuration sets
`max_rounds`, the round total never exceeds it and an active session is
strictly below it, so the session is deactivated no later than the round in
which the total reaches the target — holds of every freshly started session
and is preserved by every web operation. -/
theorem C9_max_rounds_invariant :
    (∀ (s : WebSession) (d : Difficulty) (m : GameMode) (now : Int),
        SessionInv (stepWeb s (.start d m now)).2.1)
    ∧ (∀ (s : WebSession) (op : WebOp),
        SessionInv s → SessionInv (stepWeb s op).2.1) := by
  constructor
  · intro s d m now
    exact sessionInv_start s d m now
  · intro s op h
    cases op with
    | start d m now => exact sessionInv_start s d m now
    | play c now ci pi ok => exact sessionInv_play s c now ci pi ok h
    | status now ok => exact sessionInv_status s now ok h
    | endGame now ok => exact sessionInv_endGame s now ok h

/-- Witness for C9: the invariant holds after a first winning round of the
freshly started easy streak game. -/
theorem C9_max_rounds_invariant_witness :
    SessionInv (stepWeb streakSession (.play "left" 1 0 0 true)).2.1 :=
  C9_max_rounds_invariant.2 streakSession (.play "left" 1 0 0 true)
    (C9_max_rounds_invariant.1 blankSession .easy .streak 0)

/-- Claim C1 counterexample: when time expiry is detected by a round call,
`play_round` deactivates the session and returns the time-expired outcome
WITHOUT persisting any record, and afterwards no handler can persist one
(round, status and end-game calls on the inactive session all no-op) — so
this termination path produces zero SessionRecords, not exactly one. -/
theorem C1_round_expiry_persists_nothing :
    stepPlayRound timedSession "left" 35 0 0 true
      = (.timeExpired 0 0, { timedSession with game_active := false }, [])
    ∧ stepPlayRound { timedSession with game_active := false } "left" 36 0 0 true
      = (.noActiveGame, { timedSession with game_active := false }, [])
    ∧ stepGameStatus { timedSession with game_active := false } 36 true
      = (.statusInactive, { timedSession with game_active := false }, [])
    ∧ stepEndGame { timedSession with game_active := false } 36 true
      = (.noActiveGame, { timedSession with game_active := false }, []) :=
  ⟨rfl, rfl, rfl, rfl⟩

/-- Claim C1 as amended: every web operation persists at most one record;
any operation that persists a record leaves the session inactive; every
non-start operation on an inactive session persists nothing and keeps it
inactive — together: once a session finishes, its record can never be
persisted a second time; and an explicit end-game call on an active session
with a working store persists exactly one record.  The time-expiry path
inside `play_round`, however, finishes the session while persisting
nothing. -/
theorem C1_at_most_one_record :
    (∀ (s : WebSession) (op : WebOp),
        (stepWeb s op).2.2.length ≤ 1
        ∧ ((stepWeb s op).2.2 ≠ [] → (stepWeb s op).2.1.game_active = false)
        ∧ (s.game_active = false → op.isStart = false →
            (stepWeb s op).2.2 = [] ∧ (stepWeb s op).2.1.game_active = false))
    ∧ (∀ (s : WebSession) (now : Int),
        s.game_active = true →
        (stepEndGame s now true).2.2.length = 1
        ∧ (stepEndGame s now true).2.1.game_active = false) := by
  constructor
  · intro s op
    cases op with
    | start d m now =>
      refine ⟨by simp [stepWeb, stepStartGame], ?_, ?_⟩
      · intro hne
        exact absurd rfl hne
      · intro _ hstart
        simp [WebOp.isStart] at hstart
    | play c now ci pi ok =>
      refine ⟨?_, ?_, ?_⟩
      · show (stepPlayRound s c now ci pi ok).2.2.length ≤ 1
        unfold stepPlayRound afterScore
        split_ifs <;> simp
      · show (stepPlayRound s c now ci pi ok).2.2 ≠ [] →
            (stepPlayRound s c now ci pi ok).2.1.game_active = false
        unfold stepPlayRound afterScore
        split_ifs <;> simp
      · intro hin _
        show (stepPlayRound s c now ci pi ok).2.2 = []
            ∧ (stepPlayRound s c now ci pi ok).2.1.game_active = false
        simp [stepPlayRound, hin]
    | status now ok =>
      refine ⟨?_, ?_, ?_⟩
      · show (stepGameStatus s now ok).2.2.length ≤ 1
        unfold stepGameStatus
        split_ifs <;> simp
      · show (stepGameStatus s now ok).2.2 ≠ [] →
            (stepGameStatus s now ok).2.1.game_active = false
        unfold stepGameStatus
        split_ifs <;> simp
      · intro hin _
        show (stepGameStatus s now ok).2.2 = []
            ∧ (stepGameStatus s now ok).2.1.game_active = false
        simp [stepGameStatus, hin]
    | endGame now ok =>
      refine ⟨?_, ?_, ?_⟩
      · show (stepEndGame s now ok).2.2.length ≤ 1
        unfold stepEndGame
        split_ifs <;> simp
      · show (stepEndGame s now ok).2.2 ≠ [] →
            (stepEndGame s now ok).2.1.game_active = false
        unfold stepEndGame
        split_ifs <;> simp
      · intro hin _
        show (stepEndGame s now ok).2.2 = []
            ∧ (stepEndGame s now ok).2.1.game_active = false
        simp [stepEndGame, hin]
  · intro s now hact
    unfold stepEndGame
    simp [hact]

/-- Witness for C1: an end-game call on an inactive session persists
nothing and keeps it inactive, while on the active timed session it
persists exactly one record and deactivates. -/
theorem C1_at_most_one_record_witness :
    ((stepWeb { timedSession with game_active := false } (.endGame 9 true)).2.2 = []
      ∧ (stepWeb { timedSession with game_active := false }
          (.endGame 9 true)).2.1.game_active = false)
    ∧ ((stepEndGame timedSession 5 true).2.2.length = 1
      ∧ (stepEndGame timedSession 5 true).2.1.game_active = false) :=
  ⟨(C1_at_most_one_record.1 { timedSession with game_active := false }
      (.endGame 9 true)).2.2 rfl rfl,
   C1_at_most_one_record.2 timedSession 5 rfl⟩
